import Mathlib

/-!
Verification of the Acquisition & Clipping Engine of `eodh-workflows`.

This file gives a shallow embedding, in Lean, of the pipeline driver and the
fetch/clip helpers of `src/workflows/ds/utils.py` and the raster clipping
helper `_clip_raster` of `src/workflows/stac/clip.py`, and proves the
behavioural properties stated about them.

Modelling conventions:
- Polygons (item footprints and the AOI) are modelled as finite lists of
  integer sample points.  The shapely `intersection` of two geometries is
  set intersection of the point sets, and shapely `.bounds` is the min/max
  envelope of the points (`none` for the empty geometry, which models the
  degenerate bounds shapely returns for an empty intersection).
- Network and filesystem effects are made explicit: HTTP responses are
  oracle functions from the attempt number, every fallible operation
  returns `Except`, and the files written by an operation are collected in
  an explicit list so that "no file is written" is a provable statement.
- The `retry` decorator (`@retry(tries=3, delay=3, backoff=2)`) is embedded
  as an explicit combinator that records the attempts made and the sleeps
  performed between attempts.
-/

namespace EODH

/-- A sample point of a polygon, with integer WGS84-grid coordinates. -/
structure Pt where
  x : Int
  y : Int
deriving DecidableEq

/-- A geometry (item footprint or AOI polygon) as a finite list of sample
points. -/
abbrev Geometry := List Pt

/-- Embedding of `shapely` geometry intersection (`utils.py:170`):
the points common to both geometries. -/
def Geometry.inter (g aoi : Geometry) : Geometry :=
  g.filter (fun p => decide (p ∈ aoi))

/-- A bounding box, as returned by shapely `.bounds`:
`(minx, miny, maxx, maxy)`. -/
structure Rect where
  minx : Int
  miny : Int
  maxx : Int
  maxy : Int
deriving DecidableEq

/-- The degenerate bounding box of a single point. -/
def Rect.ofPt (p : Pt) : Rect :=
  ⟨p.x, p.y, p.x, p.y⟩

/-- Enlarge a bounding box so that it also covers point `p`. -/
def Rect.extend (r : Rect) (p : Pt) : Rect :=
  ⟨min r.minx p.x, min r.miny p.y, max r.maxx p.x, max r.maxy p.y⟩

/-- Embedding of shapely `.bounds` (`utils.py:172`): the min/max envelope of
the geometry's points, or `none` for an empty geometry. -/
def Geometry.bounds : Geometry → Option Rect
  | [] => none
  | p :: ps => some (ps.foldl Rect.extend (Rect.ofPt p))

/-- Box `r` is fully contained in box `s`. -/
def Rect.within (r s : Rect) : Prop :=
  s.minx ≤ r.minx ∧ s.miny ≤ r.miny ∧ r.maxx ≤ s.maxx ∧ r.maxy ≤ s.maxy

instance (r s : Rect) : Decidable (r.within s) := by
  unfold Rect.within
  infer_instance

/-- Point `p` lies inside box `s`. -/
def Pt.inRect (p : Pt) (s : Rect) : Prop :=
  s.minx ≤ p.x ∧ s.miny ≤ p.y ∧ p.x ≤ s.maxx ∧ p.y ≤ s.maxy

instance (p : Pt) (s : Rect) : Decidable (p.inRect s) := by
  unfold Pt.inRect
  infer_instance

theorem Rect.within_refl (r : Rect) : r.within r :=
  ⟨le_refl _, le_refl _, le_refl _, le_refl _⟩

theorem Rect.within_trans {r s t : Rect} (h1 : r.within s) (h2 : s.within t) :
    r.within t := by
  obtain ⟨a1, b1, c1, d1⟩ := h1
  obtain ⟨a2, b2, c2, d2⟩ := h2
  exact ⟨le_trans a2 a1, le_trans b2 b1, le_trans c1 c2, le_trans d1 d2⟩

theorem Pt.inRect_of_within {p : Pt} {r s : Rect} (hp : p.inRect r)
    (hrs : r.within s) : p.inRect s := by
  obtain ⟨a1, b1, c1, d1⟩ := hp
  obtain ⟨a2, b2, c2, d2⟩ := hrs
  exact ⟨le_trans a2 a1, le_trans b2 b1, le_trans c1 c2, le_trans d1 d2⟩

theorem Rect.within_extend {r s : Rect} {p : Pt} (hr : r.within s)
    (hp : p.inRect s) : (r.extend p).within s := by
  obtain ⟨a1, b1, c1, d1⟩ := hr
  obtain ⟨a2, b2, c2, d2⟩ := hp
  refine ⟨?_, ?_, ?_, ?_⟩ <;> simp [Rect.extend] <;> omega

theorem Rect.self_inRect_extend (r : Rect) (p : Pt) : p.inRect (r.extend p) := by
  refine ⟨?_, ?_, ?_, ?_⟩ <;> simp [Rect.extend, Pt.inRect]

theorem Rect.within_extend_self (r : Rect) (p : Pt) : r.within (r.extend p) := by
  refine ⟨?_, ?_, ?_, ?_⟩ <;> simp [Rect.extend]

/-- Helper: folding `Rect.extend` over points that all lie inside `s`,
starting from a box within `s`, stays within `s`. -/
theorem foldl_extend_within {s : Rect} :
    ∀ (l : List Pt) (r0 : Rect), r0.within s → (∀ p ∈ l, p.inRect s) →
      (l.foldl Rect.extend r0).within s := by
  intro l
  induction l with
  | nil => intro r0 h0 _; exact h0
  | cons p ps ih =>
    intro r0 h0 hall
    simp only [List.foldl_cons]
    exact ih (r0.extend p) (Rect.within_extend h0 (hall p (by simp)))
      (fun q hq => hall q (by simp [hq]))

/-- Helper: the starting box is within the folded box. -/
theorem start_within_foldl_extend :
    ∀ (l : List Pt) (r0 : Rect), r0.within (l.foldl Rect.extend r0) := by
  intro l
  induction l with
  | nil => intro r0; exact Rect.within_refl r0
  | cons p ps ih =>
    intro r0
    simp only [List.foldl_cons]
    exact Rect.within_trans (Rect.within_extend_self r0 p) (ih (r0.extend p))

/-- Helper: every point folded into the box lies inside the result. -/
theorem mem_inRect_foldl_extend :
    ∀ (l : List Pt) (r0 : Rect) (p : Pt), p ∈ l →
      p.inRect (l.foldl Rect.extend r0) := by
  intro l
  induction l with
  | nil => intro r0 p hp; cases hp
  | cons q qs ih =>
    intro r0 p hp
    simp only [List.foldl_cons]
    rcases List.mem_cons.mp hp with h | h
    · subst h
      exact Pt.inRect_of_within (Rect.self_inRect_extend r0 p)
        (start_within_foldl_extend qs (r0.extend p))
    · exact ih (r0.extend q) p h

/-- Every point of a geometry lies inside the geometry's bounds. -/
theorem Geometry.mem_inRect_bounds {g : Geometry} {r : Rect}
    (hb : g.bounds = some r) {p : Pt} (hp : p ∈ g) : p.inRect r := by
  cases g with
  | nil => cases hp
  | cons q qs =>
    simp only [Geometry.bounds, Option.some.injEq] at hb
    subst hb
    rcases List.mem_cons.mp hp with h | h
    · subst h
      exact Pt.inRect_of_within
        (by refine ⟨?_, ?_, ?_, ?_⟩ <;> simp [Rect.ofPt, Pt.inRect])
        (start_within_foldl_extend qs (Rect.ofPt p))
    · exact mem_inRect_foldl_extend qs (Rect.ofPt q) p h

/-- The bounds of a geometry whose points all lie inside box `s` is within
`s`. -/
theorem Geometry.bounds_within {g : Geometry} {r s : Rect}
    (hb : g.bounds = some r) (hall : ∀ p ∈ g, p.inRect s) : r.within s := by
  cases g with
  | nil => simp [Geometry.bounds] at hb
  | cons q qs =>
    simp only [Geometry.bounds, Option.some.injEq] at hb
    subst hb
    refine foldl_extend_within qs (Rect.ofPt q) ?_ ?_
    · have hq := hall q (by simp)
      obtain ⟨a, b, c, d⟩ := hq
      exact ⟨a, b, c, d⟩
    · exact fun p hp => hall p (by simp [hp])

/-- Membership in an intersection implies membership in the AOI. -/
theorem Geometry.mem_of_mem_inter {g aoi : Geometry} {p : Pt}
    (hp : p ∈ Geometry.inter g aoi) : p ∈ aoi := by
  have := List.of_mem_filter hp
  simpa using this

/-! ### Data model: STAC assets and items (`pystac.Item.to_dict` shape) -/

/-- A STAC asset (`AssetRef`): remote or local href, optional declared media
type, and the extra fields this pipeline reads or writes
(`title`, `roles`, `classification:classes`, `proj:shape`, `proj:epsg`). -/
structure Asset where
  href : String
  mediaType : Option String
  title : Option String
  roles : List String
  classes : Option String
  projShape : Option (Nat × Nat)
  projEpsg : Option Int
deriving DecidableEq

/-- A STAC item as consumed by the pipeline driver: identifier, acquisition
timestamp, footprint geometry, bounding box, and the ordered asset map. -/
structure Item where
  id : String
  datetime : Int
  geometry : Geometry
  bbox : Option Rect
  assets : List (String × Asset)
deriving DecidableEq

/-- The mutable serialisable form of an item (`item.to_dict()`,
`item_modified` in the source): same shape as `Item`. -/
structure ItemRecord where
  id : String
  datetime : Int
  geometry : Geometry
  bbox : Option Rect
  assets : List (String × Asset)
deriving DecidableEq

/-! ### Media-type filtering (`utils.py:174-185` and `utils.py:296-307`) -/

/-- ASCII lower-casing, embedding Python `str.lower()` for the media-type
comparison. -/
def lowerStr (s : String) : String :=
  String.mk (s.toList.map Char.toLower)

/-- The last `/`-separated component of an href (`pathlib.PurePath.name`). -/
def lastComponent (cs : List Char) : List Char :=
  (cs.reverse.takeWhile (fun c => c != '/')).reverse

/-- Embedding of `Path(href).suffix.replace(".", "")` (`utils.py:176`):
the extension of the final path component without its dot, or `""` when the
name has no proper extension (pathlib yields a suffix only when the last dot
sits strictly inside the name). -/
def hrefExtension (href : String) : String :=
  let name := lastComponent href.toList
  let below := name.reverse.takeWhile (fun c => c != '.')
  if 0 < below.length ∧ below.length + 1 < name.length then
    String.mk below.reverse
  else ""

/-- Embedding of `asset.media_type or Path(asset.href).suffix.replace(".", "")`
(`utils.py:176`): Python `or` falls back on `None` and on the empty string. -/
def mediaTypeOf (a : Asset) : String :=
  match a.mediaType with
  | some s => if s = "" then hrefExtension a.href else s
  | none => hrefExtension a.href

/-- The supported raster media-type set of the source
(`utils.py:177-183`). -/
def SUPPORTED_MEDIA_TYPES : List String :=
  ["image/tiff; application=geotiff; profile=cloud-optimized", "tif", "tiff",
    "geotiff", "cog"]

/-- An asset survives the raster filter iff its lower-cased declared or
inferred media type is in the supported set (`utils.py:176-185`). -/
def keepAsset (kv : String × Asset) : Bool :=
  SUPPORTED_MEDIA_TYPES.contains (lowerStr (mediaTypeOf kv.2))

/-- The filtering loop (`utils.py:174-185`): iterate the item's assets and
pop every non-raster one from the copy, keeping the insertion order of the
retained ones. -/
def filterAssets (assets : List (String × Asset)) : List (String × Asset) :=
  assets.filter keepAsset

/-! ### Python dict operations on the asset map -/

/-- Python `dict.pop(k)` on an insertion-ordered mapping: remove the entry
with key `k`, keeping the order of the others. -/
def dictPop (m : List (String × Asset)) (k : String) : List (String × Asset) :=
  m.filter (fun kv => kv.1 != k)

/-- Python `dict[k] = v` on an insertion-ordered mapping: update in place if
the key is present, append at the end otherwise. -/
def dictSet (m : List (String × Asset)) (k : String) (v : Asset) :
    List (String × Asset) :=
  if m.any (fun kv => kv.1 == k) then
    m.map (fun kv => if kv.1 == k then (k, v) else kv)
  else m ++ [(k, v)]

/-- Python `asset_rename.get(k, k)` (`utils.py:201`). -/
def renameGet (rn : List (String × String)) (k : String) : String :=
  match rn.find? (fun kv => kv.1 == k) with
  | some kv => kv.2
  | none => k

/-! ### The dask fan-out (`utils.py:187-196`)

One independent task per retained asset; `compute()` re-raises the first
task error and otherwise yields the `(asset_key, asset)` records in
scheduling order, which the replacement loop re-joins by key. -/

/-- Sequential model of `dask.bag.map(...).compute()`: apply `f` to every
element; the first task error aborts the whole computation. -/
def mapExceptList (f : α → Except ε β) : List α → Except ε (List β)
  | [] => .ok []
  | x :: xs =>
    match f x with
    | .error e => .error e
    | .ok y =>
      match mapExceptList f xs with
      | .error e => .error e
      | .ok ys => .ok (y :: ys)

/-- The per-item working file of an asset: `item_output_dir / f"{key}.tif"`
(`utils.py:78`). -/
def assetFilePath (itemOutputDir key : String) : String :=
  itemOutputDir ++ "/" ++ key ++ ".tif"

/-- The per-item working directory:
`output_dir / "source_data" / item.id` (`utils.py:161`). -/
def itemOutputDirOf (outputDir id : String) : String :=
  outputDir ++ "/source_data/" ++ id

/-- The item JSON document path:
`item_output_dir / f"{item.id}.json"` (`utils.py:204`). -/
def itemJsonPath (outputDir id : String) : String :=
  itemOutputDirOf outputDir id ++ "/" ++ id ++ ".json"

/-- Embedding of `handle_single_asset_dask` (`utils.py:70-80`): build the
asset's destination file name and run the (retried) download or
download-and-clip operation; `dl` and `dlClip` are oracles standing for
`download_asset` and `download_and_clip_asset` with their retry decorators
already applied. -/
def handleSingleAsset (dl : Asset → String → Except ε Asset)
    (dlClip : Asset → String → Geometry → Except ε Asset)
    (itemOutputDir : String) (aoi : Geometry) (clip : Bool)
    (kv : String × Asset) : Except ε (String × Asset) :=
  let fname := assetFilePath itemOutputDir kv.1
  match (if clip then dlClip kv.2 fname aoi else dl kv.2 fname) with
  | .error e => .error e
  | .ok a => .ok (kv.1, a)

/-- The replacement loop (`utils.py:199-201`): for each fetched record, pop
the original key and insert the (possibly renamed) key with the fetched
asset. -/
def replaceAssets (assets : List (String × Asset))
    (records : List (String × Asset)) (rn : List (String × String)) :
    List (String × Asset) :=
  records.foldl (fun acc r => dictSet (dictPop acc r.1) (renameGet rn r.1) r.2)
    assets

/-! ### The item mutator and pipeline driver (`utils.py:147-208`) -/

/-- The geometry/bbox mutation (`utils.py:164-172`): start from the item's
serialisable form; when clipping, replace the geometry with the intersection
of the footprint and the AOI and the bbox with that intersection's bounds.
No emptiness check is performed. -/
def mutateItemRecord (aoi : Geometry) (clip : Bool) (item : Item) :
    ItemRecord :=
  let base : ItemRecord :=
    ⟨item.id, item.datetime, item.geometry, item.bbox, item.assets⟩
  if clip then
    let newGeometry := Geometry.inter item.geometry aoi
    { base with geometry := newGeometry, bbox := newGeometry.bounds }
  else base

/-- The per-item body of the `download_search_results` loop
(`utils.py:158-206`): mutate geometry/bbox, filter non-raster assets, fan
out the per-asset fetch tasks, re-join the records into the asset map, and
finally write the item JSON, returning its path together with the written
record. Any fetch error aborts the item before the JSON write. -/
def processItem (dl : Asset → String → Except ε Asset)
    (dlClip : Asset → String → Geometry → Except ε Asset) (aoi : Geometry)
    (outputDir : String) (rn : List (String × String)) (clip : Bool)
    (item : Item) : Except ε (String × ItemRecord) :=
  let dir := itemOutputDirOf outputDir item.id
  let mutated := mutateItemRecord aoi clip item
  let filteredAssets := filterAssets mutated.assets
  match mapExceptList (handleSingleAsset dl dlClip dir aoi clip)
      filteredAssets with
  | .error e => .error e
  | .ok records =>
    .ok (itemJsonPath outputDir item.id,
      { mutated with assets := replaceAssets filteredAssets records rn })

/-- Python `sorted(items, key=lambda x: x.datetime)` (`utils.py:157`):
a stable ascending sort by acquisition timestamp. -/
def sortByDatetime (items : List Item) : List Item :=
  items.insertionSort (fun a b => a.datetime ≤ b.datetime)

/-- The driver loop over the (already sorted) items: on success append the
item JSON path to the results and record the JSON write; the first per-item
error aborts the whole loop — the source has no handler around the loop
body. -/
def runItems (dl : Asset → String → Except ε Asset)
    (dlClip : Asset → String → Geometry → Except ε Asset) (aoi : Geometry)
    (outputDir : String) (rn : List (String × String)) (clip : Bool) :
    List Item → List String → List (String × ItemRecord) →
      Except ε (List String) × List (String × ItemRecord)
  | [], results, writes => (.ok results, writes)
  | item :: rest, results, writes =>
    match processItem dl dlClip aoi outputDir rn clip item with
    | .error e => (.error e, writes)
    | .ok pr =>
      runItems dl dlClip aoi outputDir rn clip rest (results ++ [pr.1])
        (writes ++ [(pr.1, pr.2)])

/-- Embedding of `download_search_results` (`utils.py:147-208`): sort the
items ascending by acquisition time and run the per-item pipeline over
them, returning the produced item JSON paths (or the first error) together
with the list of item JSON files written. -/
def downloadSearchResults (dl : Asset → String → Except ε Asset)
    (dlClip : Asset → String → Geometry → Except ε Asset)
    (items : List Item) (aoi : Geometry) (outputDir : String)
    (rn : List (String × String)) (clip : Bool) :
    Except ε (List String) × List (String × ItemRecord) :=
  runItems dl dlClip aoi outputDir rn clip (sortByDatetime items) [] []

/-! ### The retry decorator (`@retry(tries=3, delay=3, backoff=2)`)

The `retry` package loops `while _tries:` — run the attempt; on an
exception decrement the remaining tries, re-raise when none are left,
otherwise sleep the current delay and multiply it by the backoff factor. -/

/-- Result of running a retried operation: the final outcome, the number of
attempts actually made, the sleeps performed between attempts, and every
file write any attempt performed. -/
structure RetryOutcome (ε α ω : Type) where
  result : Except ε α
  attempts : Nat
  sleeps : List Nat
  writes : List ω

/-- One fallible attempt: an outcome plus the files it wrote. -/
abbrev AttemptFn (ε α ω : Type) := Nat → Except ε α × List ω

/-- Embedding of `retry.api.__retry_internal`: run attempts until one
succeeds or the tries are exhausted, sleeping `delay` between attempts and
multiplying it by `backoff` after each sleep. (The `tries = 0` base case is
never reached by this codebase, which always uses `tries = 3`.) -/
def retryRun (op : AttemptFn ε α ω) (backoff : Nat) :
    Nat → Nat → Nat → RetryOutcome ε α ω
  | 0, attempt, _ =>
    let out := op attempt
    ⟨out.1, 1, [], out.2⟩
  | 1, attempt, _ =>
    let out := op attempt
    ⟨out.1, 1, [], out.2⟩
  | tries + 2, attempt, delay =>
    let out := op attempt
    match out.1 with
    | .ok a => ⟨.ok a, 1, [], out.2⟩
    | .error _ =>
      let rest := retryRun op backoff (tries + 1) (attempt + 1)
        (delay * backoff)
      ⟨rest.result, rest.attempts + 1, delay :: rest.sleeps,
        out.2 ++ rest.writes⟩

/-- The decorator instance used throughout `utils.py`:
`@retry(tries=3, delay=3, backoff=2)`. -/
def retried (op : AttemptFn ε α ω) : RetryOutcome ε α ω :=
  retryRun op 2 3 0 3

/-- Helper to destruct a failed `Except`. -/
theorem exists_error_of_isOk_false {x : Except ε α} (h : x.isOk = false) :
    ∃ e, x = .error e := by
  cases x with
  | error e => exact ⟨e, rfl⟩
  | ok a => simp [Except.isOk, Except.toBool] at h

/-- When every attempt fails, `@retry(tries=3, delay=3, backoff=2)` makes
exactly 3 attempts, sleeps 3 then 6 between them, propagates the error of
the 3rd attempt, and accumulates the attempts' writes. -/
theorem retried_of_allFail (op : AttemptFn ε α ω)
    (h : ∀ n, (op n).1.isOk = false) :
    retried op =
      ⟨(op 2).1, 3, [3, 6], (op 0).2 ++ ((op 1).2 ++ (op 2).2)⟩ := by
  obtain ⟨e0, h0⟩ := exists_error_of_isOk_false (h 0)
  obtain ⟨e1, h1⟩ := exists_error_of_isOk_false (h 1)
  simp [retried, retryRun, h0, h1]

/-! ### HTTP and raster oracles -/

/-- An HTTP response: status code, body text, and declared content length. -/
structure HttpResponse where
  status : Nat
  body : String
  contentLength : Nat
deriving DecidableEq

/-- Embedding of one attempt of `download_asset` (`utils.py:83-101`):
`requests.get` the href, `raise_for_status` (an error for any 4xx/5xx
status), then stream the body to `output_path` and point the asset's href
at it. On a bad status no file has been opened, so nothing is written. -/
def downloadAssetOnce (a : Asset) (outputPath : String)
    (resp : HttpResponse) : Except String Asset × List String :=
  if 400 ≤ resp.status ∧ resp.status < 600 then
    (.error ("HTTP error for url: " ++ a.href), [])
  else
    (.ok { a with href := outputPath }, [outputPath])

/-- Raster metadata as carried by `src.meta` in rasterio: driver, nodata
value (absent when the source declares none), pixel shape, geotransform and
EPSG code. -/
structure RasterMeta where
  driver : String
  nodata : Option Int
  width : Nat
  height : Nat
  transform : Int
  epsg : Int
deriving DecidableEq

/-- Oracle describing an opened source raster together with the result of
`rasterio.mask.mask(..., all_touched=True, crop=True)` against the AOI: the
source metadata and the cropped window's shape and transform. -/
structure ClipSource where
  meta : RasterMeta
  outHeight : Nat
  outWidth : Nat
  outTransform : Int
deriving DecidableEq

/-- Output metadata of `download_and_clip_asset` (`utils.py:123-132`):
`src.meta.copy()` updated with driver/height/width/transform/crs only — the
nodata entry is carried over from the source untouched. -/
def clipOutMeta (src : ClipSource) : RasterMeta :=
  { src.meta with
    driver := "GTiff"
    height := src.outHeight
    width := src.outWidth
    transform := src.outTransform }

/-- Embedding of one attempt of `download_and_clip_asset`
(`utils.py:109-144`): open the remote raster (the oracle gives the opened
source or the raised error), crop to the AOI, write the cropped raster with
the updated metadata, and refresh the asset's href, `proj:shape`,
`proj:transform` and `proj:epsg`. -/
def downloadAndClipAssetOnce (a : Asset) (outputPath : String)
    (opened : Except String ClipSource) :
    Except String Asset × List (String × RasterMeta) :=
  match opened with
  | .error e => (.error e, [])
  | .ok src =>
    let fetched : Asset :=
      { a with
        href := outputPath
        projShape := some (src.outHeight, src.outWidth)
        projEpsg := some src.meta.epsg }
    (.ok fetched, [(outputPath, clipOutMeta src)])

/-- Output metadata of `_clip_raster` (`stac/clip.py:125-136`):
`nodata_value = src.nodata if src.nodata is not None else 0`, and the
metadata update always sets that nodata value on the output. -/
def clipRasterOutMeta (src : ClipSource) : RasterMeta :=
  { src.meta with
    driver := "COG"
    height := src.outHeight
    width := src.outWidth
    transform := src.outTransform
    nodata := some (src.meta.nodata.getD 0) }

/-- Embedding of `_clip_raster` (`stac/clip.py:105-142`): open the source
raster, crop to the AOI, and write the clipped raster with the updated
metadata to the output path, returning that path. -/
def clipRaster (outputFilePath : String)
    (opened : Except String ClipSource) :
    Except String String × List (String × RasterMeta) :=
  match opened with
  | .error e => (.error e, [])
  | .ok src => (.ok outputFilePath, [(outputFilePath, clipRasterOutMeta src)])

/-- The retried `download_asset` (`utils.py:83`), given the HTTP response
each attempt observes. -/
def downloadAssetRetried (a : Asset) (outputPath : String)
    (resp : Nat → HttpResponse) : RetryOutcome String Asset String :=
  retried (fun n => downloadAssetOnce a outputPath (resp n))

/-- The retried `download_and_clip_asset` (`utils.py:109`), given the
raster-open outcome each attempt observes. -/
def downloadAndClipAssetRetried (a : Asset) (outputPath : String)
    (opened : Nat → Except String ClipSource) :
    RetryOutcome String Asset (String × RasterMeta) :=
  retried (fun n => downloadAndClipAssetOnce a outputPath (opened n))

/-! ### The process-API (Sentinel Hub) fetcher (`utils.py:211-336`) -/

/-- The error message `_download_sh_item` raises for a non-200 response
(`utils.py:265`): `f"Error: {response.status_code}, : {response.text}"`. -/
def shErrorMessage (status : Nat) (text : String) : String :=
  "Error: " ++ toString status ++ ", : " ++ text

/-- Embedding of one attempt of `_download_sh_item` (`utils.py:211-266`):
POST the process request; on HTTP 200 read the COG from memory, assign
nodata 0 when the raster declares none, and write it to
`item_output_dir / "data.tif"`; on any other status raise with the status
code and body text embedded in the message, writing nothing. The write
records the path and the nodata value written. -/
def downloadShItemOnce (itemOutputDir : String) (cogNodata : Option Int)
    (resp : HttpResponse) : Except String String × List (String × Int) :=
  if resp.status = 200 then
    let outPath := itemOutputDir ++ "/data.tif"
    (.ok outPath, [(outPath, cogNodata.getD 0)])
  else
    (.error (shErrorMessage resp.status resp.body), [])

/-- The retried `_download_sh_item` (decorated with
`@retry(tries=3, delay=3, backoff=2)` at `utils.py:211`). -/
def downloadShItem (itemOutputDir : String) (cogNodata : Option Int)
    (resp : Nat → HttpResponse) : RetryOutcome String String (String × Int) :=
  retried (fun n => downloadShItemOnce itemOutputDir cogNodata (resp n))

/-- The static classification lookup `CLASSES_LOOKUP` (`utils.py:64-67`),
with the class dictionaries represented by their constant names. -/
def CLASSES_LOOKUP : List (String × String) :=
  [("clms-corine-lc", "SH_CLASSES_DICT_CORINELC"),
    ("clms-water-bodies", "SH_CLASSES_DICT_WATERBODIES")]

/-- Python dict lookup raising `KeyError` when the key is missing. -/
def lookupOrKeyError (m : List (String × String)) (k : String) :
    Except String String :=
  match m.find? (fun kv => kv.1 == k) with
  | some kv => .ok kv.2
  | none => .error ("KeyError: " ++ k)

/-- The single `data` asset `download_sentinel_hub` inserts
(`utils.py:319-324`): the fetched local raster plus the static
classification metadata of the dataset collection. -/
def shDataAsset (stacCollection : String) (downloadedPath : String)
    (classesName : String) : Asset :=
  { href := downloadedPath, mediaType := none,
    title := some ("Data for " ++ stacCollection), roles := ["data"],
    classes := some classesName, projShape := none, projEpsg := none }

/-- The per-item body of the `download_sentinel_hub` loop
(`utils.py:280-334`): mutate geometry/bbox exactly as the generic driver
does, filter non-raster assets (the retained raster assets are kept with
their original hrefs — this fetcher downloads nothing per asset), fetch the
per-item raster through the process API, insert the `data` asset, and write
the item JSON. -/
def processShItem (fetchItem : Item → Except String String) (aoi : Geometry)
    (outputDir : String) (stacCollection : String) (clip : Bool)
    (item : Item) : Except String (String × ItemRecord) :=
  let mutated := mutateItemRecord aoi clip item
  let filteredAssets := filterAssets mutated.assets
  match fetchItem item with
  | .error e => .error e
  | .ok downloadedPath =>
    match lookupOrKeyError CLASSES_LOOKUP stacCollection with
    | .error e => .error e
    | .ok classesName =>
      let newAssets :=
        dictSet filteredAssets "data"
          (shDataAsset stacCollection downloadedPath classesName)
      .ok (itemJsonPath outputDir item.id, { mutated with assets := newAssets })

/-! ### Supporting lemmas about the embedding -/

theorem mutateItemRecord_id (aoi : Geometry) (clip : Bool) (item : Item) :
    (mutateItemRecord aoi clip item).id = item.id := by
  cases clip <;> simp [mutateItemRecord]

theorem mutateItemRecord_datetime (aoi : Geometry) (clip : Bool)
    (item : Item) :
    (mutateItemRecord aoi clip item).datetime = item.datetime := by
  cases clip <;> simp [mutateItemRecord]

theorem mutateItemRecord_assets (aoi : Geometry) (clip : Bool) (item : Item) :
    (mutateItemRecord aoi clip item).assets = item.assets := by
  cases clip <;> simp [mutateItemRecord]

theorem mutateItemRecord_clip_geometry (aoi : Geometry) (item : Item) :
    (mutateItemRecord aoi true item).geometry =
      Geometry.inter item.geometry aoi := by
  simp [mutateItemRecord]

theorem mutateItemRecord_clip_bbox (aoi : Geometry) (item : Item) :
    (mutateItemRecord aoi true item).bbox =
      (Geometry.inter item.geometry aoi).bounds := by
  simp [mutateItemRecord]

theorem isOk_ok (a : α) : (Except.ok a : Except ε α).isOk = true := rfl

theorem isOk_error (e : ε) : (Except.error e : Except ε α).isOk = false := rfl

theorem mapExceptList_isOk_iff {f : α → Except ε β} :
    ∀ {l : List α}, (mapExceptList f l).isOk = true ↔
      ∀ x ∈ l, (f x).isOk = true := by
  intro l
  induction l with
  | nil => simp [mapExceptList, isOk_ok]
  | cons x xs ih =>
    simp only [mapExceptList]
    cases hfx : f x with
    | error e =>
      constructor
      · intro h; rw [isOk_error] at h; cases h
      · intro h
        have hx := h x (by simp)
        rw [hfx, isOk_error] at hx
        cases hx
    | ok b =>
      cases hrest : mapExceptList f xs with
      | error e =>
        constructor
        · intro h; rw [isOk_error] at h; cases h
        · intro h
          have h2 : (mapExceptList f xs).isOk = true :=
            ih.mpr (fun z hz => h z (by simp [hz]))
          rw [hrest, isOk_error] at h2
          cases h2
      | ok bs =>
        constructor
        · intro _ z hz
          rcases List.mem_cons.mp hz with hz | hz
          · subst hz; rw [hfx, isOk_ok]
          · exact ih.mp (by rw [hrest, isOk_ok]) z hz
        · intro _; rw [isOk_ok]

theorem processItem_ok {dl : Asset → String → Except ε Asset}
    {dlClip : Asset → String → Geometry → Except ε Asset} {aoi : Geometry}
    {outputDir : String} {rn : List (String × String)} {clip : Bool}
    {item : Item} {p : String} {rec : ItemRecord}
    (h : processItem dl dlClip aoi outputDir rn clip item = .ok (p, rec)) :
    p = itemJsonPath outputDir item.id ∧
    rec.id = item.id ∧
    rec.geometry = (mutateItemRecord aoi clip item).geometry ∧
    rec.bbox = (mutateItemRecord aoi clip item).bbox ∧
    ∃ records,
      mapExceptList
        (handleSingleAsset dl dlClip (itemOutputDirOf outputDir item.id) aoi
          clip)
        (filterAssets item.assets) = .ok records ∧
      rec.assets = replaceAssets (filterAssets item.assets) records rn := by
  rw [processItem] at h
  rw [mutateItemRecord_assets] at h
  cases hm : mapExceptList
      (handleSingleAsset dl dlClip (itemOutputDirOf outputDir item.id) aoi
        clip)
      (filterAssets item.assets) with
  | error e => rw [hm] at h; cases h
  | ok records =>
    rw [hm] at h
    simp only [Except.ok.injEq, Prod.mk.injEq] at h
    obtain ⟨hp, hrec⟩ := h
    subst hp
    subst hrec
    exact ⟨rfl, mutateItemRecord_id aoi clip item, rfl, rfl, records, rfl,
      rfl⟩

theorem processItem_isOk_iff {dl : Asset → String → Except ε Asset}
    {dlClip : Asset → String → Geometry → Except ε Asset} {aoi : Geometry}
    {outputDir : String} {rn : List (String × String)} {clip : Bool}
    {item : Item} :
    (processItem dl dlClip aoi outputDir rn clip item).isOk = true ↔
      (mapExceptList
        (handleSingleAsset dl dlClip (itemOutputDirOf outputDir item.id) aoi
          clip)
        (filterAssets item.assets)).isOk = true := by
  rw [processItem]
  rw [mutateItemRecord_assets]
  cases hm : mapExceptList
      (handleSingleAsset dl dlClip (itemOutputDirOf outputDir item.id) aoi
        clip)
      (filterAssets item.assets) with
  | error e => simp [Except.isOk, Except.toBool]
  | ok records => simp [Except.isOk, Except.toBool]

theorem runItems_ok_iff {dl : Asset → String → Except ε Asset}
    {dlClip : Asset → String → Geometry → Except ε Asset} {aoi : Geometry}
    {outputDir : String} {rn : List (String × String)} {clip : Bool} :
    ∀ (l : List Item) (acc : List String)
      (ws : List (String × ItemRecord)),
      (runItems dl dlClip aoi outputDir rn clip l acc ws).1.isOk = true ↔
        ∀ item ∈ l,
          (processItem dl dlClip aoi outputDir rn clip item).isOk = true := by
  intro l
  induction l with
  | nil => intro acc ws; simp [runItems, Except.isOk, Except.toBool]
  | cons item rest ih =>
    intro acc ws
    simp only [runItems]
    cases hp : processItem dl dlClip aoi outputDir rn clip item with
    | error e =>
      simp only [Except.isOk, Except.toBool]
      constructor
      · intro h; cases h
      · intro h
        have := h item (by simp)
        rw [hp] at this
        simp [Except.isOk, Except.toBool] at this
    | ok pr =>
      rw [ih]
      constructor
      · intro h z hz
        rcases List.mem_cons.mp hz with hz | hz
        · subst hz; rw [hp]; rfl
        · exact h z hz
      · intro h z hz
        exact h z (by simp [hz])

theorem runItems_writes {dl : Asset → String → Except ε Asset}
    {dlClip : Asset → String → Geometry → Except ε Asset} {aoi : Geometry}
    {outputDir : String} {rn : List (String × String)} {clip : Bool} :
    ∀ (l : List Item) (acc : List String) (ws : List (String × ItemRecord))
      (res : Except ε (List String)) (ws' : List (String × ItemRecord)),
      runItems dl dlClip aoi outputDir rn clip l acc ws = (res, ws') →
      ∀ pw ∈ ws', pw ∈ ws ∨
        ∃ item ∈ l,
          processItem dl dlClip aoi outputDir rn clip item = .ok pw := by
  intro l
  induction l with
  | nil =>
    intro acc ws res ws' h pw hpw
    simp only [runItems, Prod.mk.injEq] at h
    exact .inl (h.2 ▸ hpw)
  | cons item rest ih =>
    intro acc ws res ws' h pw hpw
    simp only [runItems] at h
    cases hp : processItem dl dlClip aoi outputDir rn clip item with
    | error e =>
      rw [hp] at h
      simp only [Prod.mk.injEq] at h
      exact .inl (h.2 ▸ hpw)
    | ok pr =>
      rw [hp] at h
      rcases ih _ _ res ws' h pw hpw with hin | ⟨z, hz, hzp⟩
      · rcases List.mem_append.mp hin with hin | hin
        · exact .inl hin
        · simp only [List.mem_singleton] at hin
          subst hin
          exact .inr ⟨item, by simp, hp⟩
      · exact .inr ⟨z, by simp [hz], hzp⟩

instance : IsTotal Item (fun a b => a.datetime ≤ b.datetime) :=
  ⟨fun a b => Int.le_total a.datetime b.datetime⟩

instance : IsTrans Item (fun a b => a.datetime ≤ b.datetime) :=
  ⟨fun _ _ _ hab hbc => le_trans hab hbc⟩

theorem sortByDatetime_perm (items : List Item) :
    (sortByDatetime items).Perm items :=
  List.perm_insertionSort _ items

/-- A fetch oracle for the generic download path that always succeeds,
pointing the asset at its destination file. -/
def fetchOkDl : Asset → String → Except String Asset :=
  fun a p => .ok { a with href := p }

/-- A fetch oracle for the download-and-clip path that always succeeds. -/
def fetchOkClip : Asset → String → Geometry → Except String Asset :=
  fun a p _ => .ok { a with href := p }

/-- A raster asset with declared media type `tif`. -/
def assetTif : Asset :=
  { href := "https://example.com/b1.tif", mediaType := some "tif",
    title := none, roles := [], classes := none, projShape := none,
    projEpsg := none }

/-- Raster metadata of a source that declares no nodata value. -/
def metaNoNodata : RasterMeta :=
  { driver := "GTiff", nodata := none, width := 10, height := 10,
    transform := 1, epsg := 4326 }

/-- A clip-source oracle whose source raster declares no nodata value. -/
def srcNoNodata : ClipSource :=
  { meta := metaNoNodata, outHeight := 2, outWidth := 2, outTransform := 7 }

/-- A backend that persistently answers HTTP 403. -/
def resp403 : Nat → HttpResponse := fun _ => ⟨403, "Forbidden", 0⟩

/-- A backend that persistently answers HTTP 500. -/
def resp500 : Nat → HttpResponse := fun _ => ⟨500, "Internal Server Error", 0⟩

/-- A raster-open oracle that persistently fails. -/
def openFail : Nat → Except String ClipSource :=
  fun _ => .error "RasterioIOError"

/-! ### C3 — nodata policy of the clip operations -/

/-- C3, counterexample: `_clip_raster` violates the claimed nodata policy —
for a source raster that declares no nodata value, the output metadata has
nodata 0 injected rather than no nodata value. -/
theorem clip_raster_injects_nodata_zero :
    srcNoNodata.meta.nodata = none ∧
    (clipRasterOutMeta srcNoNodata).nodata = some 0 :=
  ⟨rfl, rfl⟩

/-- C3 (amended): `download_and_clip_asset` carries the source's nodata
entry into the written metadata unchanged — a declared value is preserved
and nothing is injected when none is declared — while `_clip_raster`
preserves a declared nodata value but injects the value 0 when the source
declares none. -/
theorem nodata_policy_of_clip_operations (a : Asset)
    (outputPath outputFilePath : String) (src : ClipSource) :
    (downloadAndClipAssetOnce a outputPath (.ok src)).2 =
      [(outputPath, clipOutMeta src)] ∧
    (clipOutMeta src).nodata = src.meta.nodata ∧
    (clipRaster outputFilePath (.ok src)).2 =
      [(outputFilePath, clipRasterOutMeta src)] ∧
    (clipRasterOutMeta src).nodata = some (src.meta.nodata.getD 0) :=
  ⟨rfl, rfl, rfl, rfl⟩

/-! ### C4 — non-200 responses from the process-API backend -/

/-- C4, counterexample: `_download_sh_item` carries the same retry
decorator as the asset fetchers, so on a persistent HTTP 403 it does not
raise immediately — it makes 3 attempts with sleeps of 3 and 6 time units
between them before the error propagates. -/
theorem download_sh_item_403_not_immediate :
    (downloadShItem "out/source_data/i1" none resp403).attempts = 3 ∧
    ¬(downloadShItem "out/source_data/i1" none resp403).attempts = 1 ∧
    (downloadShItem "out/source_data/i1" none resp403).sleeps = [3, 6] := by
  refine ⟨rfl, ?_, rfl⟩
  intro h
  simp [downloadShItem, retried, retryRun, downloadShItemOnce, resp403,
    shErrorMessage] at h

/-- C4 (amended): for a backend that persistently answers with a non-200
status, `_download_sh_item` raises a terminal error — after its 3 retry
attempts (sleeping 3 then 6 time units) — whose message embeds the response
status code and body text, and no output file is written for the item. -/
theorem download_sh_item_non_200 (dir : String) (nod : Option Int)
    (resp : Nat → HttpResponse) (h : ∀ n, (resp n).status ≠ 200) :
    downloadShItem dir nod resp =
      ⟨.error (shErrorMessage (resp 2).status (resp 2).body), 3, [3, 6],
        []⟩ := by
  have hall :
      ∀ n, ((fun n => downloadShItemOnce dir nod (resp n)) n).1.isOk =
        false := by
    intro n
    simp [downloadShItemOnce, h n, isOk_error]
  have hr := retried_of_allFail _ hall
  rw [downloadShItem, hr]
  simp [downloadShItemOnce, h 0, h 1, h 2]

/-- C4 witness: the amended statement at the concrete persistent-403
backend. -/
theorem download_sh_item_non_200_witness :
    downloadShItem "out/source_data/i1" none resp403 =
      ⟨.error (shErrorMessage 403 "Forbidden"), 3, [3, 6], []⟩ :=
  download_sh_item_non_200 "out/source_data/i1" none resp403
    (fun _ => by show (403 : Nat) ≠ 200; decide)

/-! ### C5 — bounded retry policy of the fetch operations -/

/-- C5: on persistent failure both `download_asset` and
`download_and_clip_asset` are attempted exactly 3 times, sleeping 3 time
units after the first failure and 6 after the second (initial delay 3,
backoff multiplier 2); the 3rd failure propagates as a terminal error, no
file is written, and the total retry delay is `3 + 6 = 9 ≥ 9` time
units. -/
theorem fetch_retry_policy (a : Asset) (outputPath : String)
    (resp : Nat → HttpResponse) (opened : Nat → Except String ClipSource)
    (hresp : ∀ n, 400 ≤ (resp n).status ∧ (resp n).status < 600)
    (hopen : ∀ n, (opened n).isOk = false) :
    (downloadAssetRetried a outputPath resp).attempts = 3 ∧
    (downloadAssetRetried a outputPath resp).sleeps = [3, 6] ∧
    (downloadAssetRetried a outputPath resp).result.isOk = false ∧
    (downloadAssetRetried a outputPath resp).writes = [] ∧
    (downloadAndClipAssetRetried a outputPath opened).attempts = 3 ∧
    (downloadAndClipAssetRetried a outputPath opened).sleeps = [3, 6] ∧
    (downloadAndClipAssetRetried a outputPath opened).result.isOk = false ∧
    (downloadAndClipAssetRetried a outputPath opened).writes = [] ∧
    List.sum [3, 6] ≥ 9 := by
  have h1 :
      ∀ n, ((fun n => downloadAssetOnce a outputPath (resp n)) n).1.isOk =
        false := by
    intro n
    simp [downloadAssetOnce, hresp n, isOk_error]
  have h2 :
      ∀ n,
        ((fun n => downloadAndClipAssetOnce a outputPath (opened n))
            n).1.isOk = false := by
    intro n
    obtain ⟨e, he⟩ := exists_error_of_isOk_false (hopen n)
    simp [downloadAndClipAssetOnce, he, isOk_error]
  have r1 := retried_of_allFail _ h1
  have r2 := retried_of_allFail _ h2
  rw [downloadAssetRetried, downloadAndClipAssetRetried, r1, r2]
  refine ⟨rfl, rfl, h1 2, ?_, rfl, rfl, h2 2, ?_, by norm_num⟩
  · simp [downloadAssetOnce, hresp 0, hresp 1, hresp 2]
  · obtain ⟨e0, he0⟩ := exists_error_of_isOk_false (hopen 0)
    obtain ⟨e1, he1⟩ := exists_error_of_isOk_false (hopen 1)
    obtain ⟨e2, he2⟩ := exists_error_of_isOk_false (hopen 2)
    simp [downloadAndClipAssetOnce, he0, he1, he2]

/-- C5 witness: the retry policy at a concrete persistent-500 backend and a
concrete persistently failing raster open. -/
theorem fetch_retry_policy_witness :
    (downloadAssetRetried assetTif "out/b1.tif" resp500).attempts = 3 ∧
    (downloadAssetRetried assetTif "out/b1.tif" resp500).sleeps = [3, 6] ∧
    (downloadAndClipAssetRetried assetTif "out/b1.tif" openFail).attempts =
      3 ∧
    (downloadAndClipAssetRetried assetTif "out/b1.tif" openFail).sleeps =
      [3, 6] := by
  have h := fetch_retry_policy assetTif "out/b1.tif" resp500 openFail
    (fun _ => ⟨by show (400 : Nat) ≤ 500; decide,
      by show (500 : Nat) < 600; decide⟩)
    (fun _ => rfl)
  exact ⟨h.1, h.2.1, h.2.2.2.2.1, h.2.2.2.2.2.1⟩

/-! ### C6 — geometry mutation of the two clipping paths -/

/-- Embedding of the per-item geometry update of `clip_stac_items`
(`stac/clip.py:94-96`): after clipping an item's assets, the item's
geometry is replaced by the whole AOI polygon
(`item.geometry = mapping(aoi_polygon)`) and its bbox by that polygon's
bounds (`item.bbox = list(aoi_polygon.bounds)`) — not by the footprint/AOI
intersection. -/
def clipStacItemGeometry (aoi : Geometry) (item : Item) : Item :=
  { item with geometry := aoi, bbox := aoi.bounds }

/-- An item whose footprint partially overlaps the sample AOI. -/
def itemClip : Item :=
  { id := "i1", datetime := 0, geometry := [⟨0, 0⟩, ⟨2, 3⟩], bbox := none,
    assets := [("b1", assetTif)] }

/-- A sample AOI polygon. -/
def aoiSample : Geometry := [⟨2, 3⟩, ⟨5, 5⟩]

/-- C6, counterexample: the claim fails on its cited `clip_stac_items` path
(`stac/clip.py:94-96`) — for an item whose footprint only partially
overlaps the AOI, that path replaces the item's geometry with the whole AOI
polygon, which is not the geometric intersection of the footprint with the
AOI. -/
theorem clip_stac_items_geometry_not_intersection :
    (clipStacItemGeometry aoiSample itemClip).geometry = aoiSample ∧
    Geometry.inter itemClip.geometry aoiSample = [⟨2, 3⟩] ∧
    ¬((clipStacItemGeometry aoiSample itemClip).geometry =
      Geometry.inter itemClip.geometry aoiSample) :=
  ⟨rfl, rfl, by decide⟩

/-- C6 (amended): for every item processed with `clip = true` by
`download_search_results`, the output record's geometry is the geometric
intersection of the item's footprint with the AOI, its bbox is that
intersection's bounds, and whenever both boxes exist the output bbox lies
fully within the AOI's bounding box; on the `clip_stac_items` path the
geometry is instead replaced by the whole AOI polygon and the bbox by the
AOI's bounds, so there too the output bbox is contained in the AOI's
bounding box. -/
theorem clip_geometry_invariant (dl : Asset → String → Except ε Asset)
    (dlClip : Asset → String → Geometry → Except ε Asset) (aoi : Geometry)
    (outputDir : String) (rn : List (String × String)) (item : Item)
    (p : String) (rec : ItemRecord)
    (h : processItem dl dlClip aoi outputDir rn true item = .ok (p, rec)) :
    (rec.geometry = Geometry.inter item.geometry aoi ∧
      rec.bbox = (Geometry.inter item.geometry aoi).bounds ∧
      ∀ r ra, rec.bbox = some r → aoi.bounds = some ra → r.within ra) ∧
    ((clipStacItemGeometry aoi item).geometry = aoi ∧
      (clipStacItemGeometry aoi item).bbox = aoi.bounds ∧
      ∀ r ra, (clipStacItemGeometry aoi item).bbox = some r →
        aoi.bounds = some ra → r.within ra) := by
  obtain ⟨_, _, hg, hb, _⟩ := processItem_ok h
  rw [mutateItemRecord_clip_geometry] at hg
  rw [mutateItemRecord_clip_bbox] at hb
  refine ⟨⟨hg, hb, ?_⟩, rfl, rfl, ?_⟩
  · intro r ra hr hra
    rw [hb] at hr
    refine Geometry.bounds_within hr ?_
    intro q hq
    exact Geometry.mem_inRect_bounds hra (Geometry.mem_of_mem_inter hq)
  · intro r ra hr hra
    have h1 : aoi.bounds = some r := hr
    rw [h1] at hra
    cases hra
    exact Rect.within_refl r

/-- The record the pipeline produces for `itemClip` against `aoiSample`. -/
def recClipExpected : ItemRecord :=
  { id := "i1", datetime := 0, geometry := [⟨2, 3⟩],
    bbox := some ⟨2, 3, 2, 3⟩,
    assets := [("b1",
      { assetTif with href := "out/source_data/i1/b1.tif" })] }

/-- C6 witness: both clipping paths at a concrete partially overlapping
item. -/
theorem clip_geometry_invariant_witness :
    recClipExpected.geometry = Geometry.inter itemClip.geometry aoiSample ∧
    Rect.within ⟨2, 3, 2, 3⟩ ⟨2, 3, 5, 5⟩ ∧
    (clipStacItemGeometry aoiSample itemClip).geometry = aoiSample := by
  have h := clip_geometry_invariant fetchOkDl fetchOkClip aoiSample "out" []
    itemClip (itemJsonPath "out" "i1") recClipExpected rfl
  exact ⟨h.1.1, h.1.2.2 ⟨2, 3, 2, 3⟩ ⟨2, 3, 5, 5⟩ rfl rfl, h.2.1⟩

/-! ### C7 — asset filtering by media type -/

/-- C10: when the item's footprint does not intersect the AOI at all, the
geometry-mutation step of `download_search_results` performs no emptiness
check: it records the empty intersection as the item's geometry and that
geometry's (degenerate) bounds as the bbox, and the item still proceeds to
the asset-fetch stage — processing succeeds exactly when the scheduled
fetches succeed, producing a record with the empty geometry. -/
theorem empty_intersection_not_skipped (dl : Asset → String → Except ε Asset)
    (dlClip : Asset → String → Geometry → Except ε Asset) (aoi : Geometry)
    (outputDir : String) (rn : List (String × String)) (item : Item)
    (hEmpty : Geometry.inter item.geometry aoi = []) :
    (mutateItemRecord aoi true item).geometry = [] ∧
    (mutateItemRecord aoi true item).bbox = none ∧
    ((processItem dl dlClip aoi outputDir rn true item).isOk = true ↔
      (mapExceptList
        (handleSingleAsset dl dlClip (itemOutputDirOf outputDir item.id) aoi
          true)
        (filterAssets item.assets)).isOk = true) ∧
    ∀ p rec, processItem dl dlClip aoi outputDir rn true item = .ok (p, rec) →
      rec.geometry = [] ∧ rec.bbox = none := by
  have hg : (mutateItemRecord aoi true item).geometry = [] := by
    rw [mutateItemRecord_clip_geometry, hEmpty]
  have hb : (mutateItemRecord aoi true item).bbox = none := by
    rw [mutateItemRecord_clip_bbox, hEmpty]
    rfl
  refine ⟨hg, hb, processItem_isOk_iff, ?_⟩
  intro p rec h
  obtain ⟨_, _, hg2, hb2, _⟩ := processItem_ok h
  exact ⟨by rw [hg2, hg], by rw [hb2, hb]⟩

/-- An item whose footprint is disjoint from the far AOI. -/
def itemDisjoint : Item :=
  { id := "i3", datetime := 0, geometry := [⟨0, 0⟩], bbox := none,
    assets := [("b1", assetTif)] }

/-- C10 witness: a disjoint item is still fully processed when its fetches
succeed. -/
theorem empty_intersection_not_skipped_witness :
    (processItem fetchOkDl fetchOkClip [⟨9, 9⟩] "out" [] true
      itemDisjoint).isOk = true := by
  have h := empty_intersection_not_skipped fetchOkDl fetchOkClip [⟨9, 9⟩]
    "out" [] itemDisjoint rfl
  exact h.2.2.1.mpr rfl

/-! ### C9 — the Sentinel Hub item's asset map -/

/-- A process-API fetch oracle that always succeeds with a fixed local
raster path. -/
def fetchItemOk : Item → Except String String :=
  fun _ => .ok "out/source_data/i4/data.tif"

/-- An item that (unusually for Sentinel Hub) declares a raster asset. -/
def itemShWithTif : Item :=
  { id := "i4", datetime := 0, geometry := [⟨0, 0⟩], bbox := none,
    assets := [("b1", assetTif)] }

/-- C9, counterexample: `download_sentinel_hub` only discards non-raster
assets — an item that declares a raster asset keeps it alongside the
inserted `data` asset, so the output map has two entries, not exactly the
single `data` asset. -/
theorem sh_item_keeps_raster_assets :
    processShItem fetchItemOk [] "out" "clms-corine-lc" false itemShWithTif =
      .ok (itemJsonPath "out" "i4",
        { id := "i4", datetime := 0, geometry := [⟨0, 0⟩], bbox := none,
          assets := [("b1", assetTif),
            ("data", shDataAsset "clms-corine-lc"
              "out/source_data/i4/data.tif" "SH_CLASSES_DICT_CORINELC")] }) ∧
    ¬([("b1", assetTif),
        ("data", shDataAsset "clms-corine-lc" "out/source_data/i4/data.tif"
          "SH_CLASSES_DICT_CORINELC")].length = 1) := by
  exact ⟨rfl, by decide⟩

/-- C9 (amended): for every item processed through the Sentinel Hub
pipeline, the output asset map is the raster-filtered original asset map
with the single fetched `data` asset inserted, keyed `data`, carrying the
fetched local raster path and the collection's static classification
metadata; only non-raster originals are discarded, and when the item
declares no raster assets the output map is exactly the one `data`
asset. -/
theorem sh_item_inserts_data_asset (fetchItem : Item → Except String String)
    (aoi : Geometry) (outputDir stacCollection : String) (clip : Bool)
    (item : Item) (p : String) (rec : ItemRecord)
    (h : processShItem fetchItem aoi outputDir stacCollection clip item =
      .ok (p, rec)) :
    ∃ path classesName, fetchItem item = .ok path ∧
      lookupOrKeyError CLASSES_LOOKUP stacCollection = .ok classesName ∧
      rec.assets = dictSet (filterAssets item.assets) "data"
        (shDataAsset stacCollection path classesName) ∧
      (filterAssets item.assets = [] →
        rec.assets =
          [("data", shDataAsset stacCollection path classesName)]) := by
  rw [processShItem, mutateItemRecord_assets] at h
  cases hf : fetchItem item with
  | error e => rw [hf] at h; cases h
  | ok path =>
    rw [hf] at h
    cases hl : lookupOrKeyError CLASSES_LOOKUP stacCollection with
    | error e => rw [hl] at h; cases h
    | ok cn =>
      rw [hl] at h
      simp only [Except.ok.injEq, Prod.mk.injEq] at h
      obtain ⟨hp, hrec⟩ := h
      subst hrec
      refine ⟨path, cn, rfl, rfl, rfl, ?_⟩
      intro hnil
      simp [hnil, dictSet]

/-- An item with an empty asset map, as Sentinel Hub items have. -/
def itemShNoAssets : Item :=
  { id := "i5", datetime := 5, geometry := [⟨0, 0⟩], bbox := none,
    assets := [] }

/-- C9 witness: the amended claim at a concrete asset-less item. -/
theorem sh_item_inserts_data_asset_witness :
    ∃ path classesName, fetchItemOk itemShNoAssets = .ok path ∧
      lookupOrKeyError CLASSES_LOOKUP "clms-corine-lc" = .ok classesName ∧
      ({ id := "i5", datetime := 5, geometry := [⟨0, 0⟩], bbox := none,
          assets := [("data", shDataAsset "clms-corine-lc"
            "out/source_data/i4/data.tif" "SH_CLASSES_DICT_CORINELC")] } :
          ItemRecord).assets =
        dictSet (filterAssets itemShNoAssets.assets) "data"
          (shDataAsset "clms-corine-lc" path classesName) ∧
      (filterAssets itemShNoAssets.assets = [] →
        ({ id := "i5", datetime := 5, geometry := [⟨0, 0⟩], bbox := none,
            assets := [("data", shDataAsset "clms-corine-lc"
              "out/source_data/i4/data.tif"
              "SH_CLASSES_DICT_CORINELC")] } : ItemRecord).assets =
          [("data", shDataAsset "clms-corine-lc" path classesName)]) :=
  sh_item_inserts_data_asset fetchItemOk [] "out" "clms-corine-lc" false
    itemShNoAssets (itemJsonPath "out" "i5")
    { id := "i5", datetime := 5, geometry := [⟨0, 0⟩], bbox := none,
      assets := [("data", shDataAsset "clms-corine-lc"
        "out/source_data/i4/data.tif" "SH_CLASSES_DICT_CORINELC")] } rfl

/-! ### C1 — error propagation at the driver -/

/-- An asset whose remote href the failing fetch oracle rejects. -/
def assetBad : Asset :=
  { href := "bad", mediaType := some "tif", title := none, roles := [],
    classes := none, projShape := none, projEpsg := none }

/-- A fetch oracle that fails (after its retries) on the `bad` href and
succeeds on everything else. -/
def fetchFailBad : Asset → String → Except String Asset :=
  fun a p =>
    if a.href == "bad" then .error "connection error"
    else .ok { a with href := p }

/-- The failing item, first in acquisition order. -/
def itemBadFirst : Item :=
  { id := "ibad", datetime := 0, geometry := [⟨0, 0⟩], bbox := none,
    assets := [("b1", assetBad)] }

/-- A good item, second in acquisition order. -/
def itemGoodSecond : Item :=
  { id := "igood", datetime := 1, geometry := [⟨0, 0⟩], bbox := none,
    assets := [("b1", assetTif)] }

/-- C1, counterexample: one failing item aborts the whole run —
`download_search_results` propagates the item's terminal error instead of
returning a path list, and the later good item is neither processed nor
written. -/
theorem driver_run_aborts_counterexample :
    (downloadSearchResults fetchFailBad fetchOkClip
      [itemBadFirst, itemGoodSecond] [] "out" [] false).1 =
      .error "connection error" ∧
    (downloadSearchResults fetchFailBad fetchOkClip
      [itemBadFirst, itemGoodSecond] [] "out" [] false).2 = [] :=
  ⟨rfl, rfl⟩

/-- C1 (amended): `download_search_results` catches no per-item error — the
run returns a path list exactly when every item processes successfully, so
the first unrecoverable per-item error propagates and aborts the whole
run. -/
theorem driver_aborts_on_item_error (dl : Asset → String → Except ε Asset)
    (dlClip : Asset → String → Geometry → Except ε Asset)
    (items : List Item) (aoi : Geometry) (outputDir : String)
    (rn : List (String × String)) (clip : Bool) :
    (downloadSearchResults dl dlClip items aoi outputDir rn clip).1.isOk =
        true ↔
      ∀ item ∈ items,
        (processItem dl dlClip aoi outputDir rn clip item).isOk = true := by
  rw [downloadSearchResults, runItems_ok_iff]
  constructor
  · intro h item hItem
    exact h item ((sortByDatetime_perm items).mem_iff.mpr hItem)
  · intro h item hItem
    exact h item ((sortByDatetime_perm items).mem_iff.mp hItem)

/-- C1 witness: the amended claim decides a concrete run in both
directions — the all-good run succeeds. -/
theorem driver_aborts_on_item_error_witness :
    (downloadSearchResults fetchOkDl fetchOkClip [itemGoodSecond] [] "out"
      [] false).1.isOk = true :=
  (driver_aborts_on_item_error fetchOkDl fetchOkClip [itemGoodSecond] []
    "out" [] false).mpr
    (fun item hItem => by
      rcases List.mem_singleton.mp hItem with rfl
      rfl)

/-! ### C2 — atomicity of the item JSON write -/

/-- C2: for every run of `download_search_results` over items with distinct
ids, if an item fails at the asset-fetch stage then no item JSON document
written by the run belongs to it — the JSON write happens only after all of
an item's asset operations have resolved successfully. -/
theorem atomicity_no_json_for_failed_item
    (dl : Asset → String → Except ε Asset)
    (dlClip : Asset → String → Geometry → Except ε Asset)
    (items : List Item) (aoi : Geometry) (outputDir : String)
    (rn : List (String × String)) (clip : Bool) (item : Item)
    (res : Except ε (List String)) (ws : List (String × ItemRecord))
    (hNodup : (items.map Item.id).Nodup) (hMem : item ∈ items)
    (hFail : (processItem dl dlClip aoi outputDir rn clip item).isOk =
      false)
    (hRun : downloadSearchResults dl dlClip items aoi outputDir rn clip =
      (res, ws)) :
    ∀ pw ∈ ws, pw.2.id ≠ item.id := by
  intro pw hpw hid
  rw [downloadSearchResults] at hRun
  rcases runItems_writes _ _ _ _ _ hRun pw hpw with hin | ⟨it, hit, hok⟩
  · cases hin
  · have hmem' : it ∈ items := (sortByDatetime_perm items).mem_iff.mp hit
    have hok2 : processItem dl dlClip aoi outputDir rn clip it =
        .ok (pw.1, pw.2) := hok
    obtain ⟨_, hrecId, _, _, _⟩ := processItem_ok hok2
    have hsame : it = item :=
      List.inj_on_of_nodup_map hNodup hmem' hMem
        (by rw [← hrecId]; exact hid)
    subst hsame
    rw [hok, isOk_ok] at hFail
    cases hFail

/-- The failing item, later in acquisition order than the good one. -/
def itemBadLater : Item :=
  { id := "zbad", datetime := 9, geometry := [⟨0, 0⟩], bbox := none,
    assets := [("b1", assetBad)] }

/-- The record the run writes for the good item before the bad item
fails. -/
def recGoodExpected : ItemRecord :=
  { id := "igood", datetime := 1, geometry := [⟨0, 0⟩], bbox := none,
    assets := [("b1",
      { assetTif with href := "out/source_data/igood/b1.tif" })] }

/-- C2 witness: in the concrete run where the good item succeeds first and
the bad item then fails, the single JSON write belongs to the good item,
not to the failed one. -/
theorem atomicity_no_json_for_failed_item_witness :
    recGoodExpected.id ≠ itemBadLater.id := by
  have h := atomicity_no_json_for_failed_item fetchFailBad fetchOkClip
    [itemGoodSecond, itemBadLater] [] "out" [] false itemBadLater
    (.error "connection error")
    [(itemJsonPath "out" "igood", recGoodExpected)]
    (by decide) (by simp) rfl rfl
  exact h (itemJsonPath "out" "igood", recGoodExpected) (by simp)

/-! ### C8 — stable acquisition-time ordering -/

end EODH

